import Mathlib

/-!
Verification of the COBRA negotiation agent (`buyer_agent.py`).

The buyer and seller decision functions, and the two driver loops of the
test scenarios, are embedded as executable Lean definitions.  Python
integers are modelled as `ℤ`; the floating-point configuration multipliers
are modelled as `ℚ`; the Python conversion `int(...)` applied to a product
of a price and a multiplier is modelled as truncation toward zero
(`pyTrunc`), which coincides with `Int.floor` on nonnegative arguments.
Configuration dictionaries with possibly-missing keys are modelled as
structures of `Option` fields, with `Option.getD` playing the role of
`dict.get(key, default)`.
-/

namespace Cobra

/-- Python `int(q)` on a rational: truncation toward zero. -/
def pyTrunc (q : ℚ) : ℤ := if 0 ≤ q then ⌊q⌋ else ⌈q⌉

/-- Python `int(p * m)` for an integer price `p` and a rational multiplier
`m`, computed exactly on integers: `p * m = (p * m.num) / m.den` and
`int(...)` truncates toward zero, which is `Int.tdiv`.  Agreement with
`pyTrunc` is proved in `truncMul_eq_pyTrunc` below. -/
def truncMul (p : ℤ) (m : ℚ) : ℤ := (p * m.num).tdiv m.den

/-- The possible deal outcomes (`DealStatus` enum). -/
inductive DealStatus
  | ONGOING
  | ACCEPTED
  | REJECTED
deriving DecidableEq, Repr

/-- The product being negotiated (the free-form `attributes` map is never
read by the decision logic and is omitted). -/
structure Product where
  name : String
  category : String
  quantity : ℤ
  quality_grade : String
  origin : String
  base_market_price : ℤ
deriving DecidableEq, Repr

/-- Negotiation state at any round (`NegotiationContext`); messages are
(role, message) pairs. -/
structure NegotiationContext where
  product : Product
  your_budget : ℤ
  current_round : ℤ
  seller_offers : List ℤ
  your_offers : List ℤ
  messages : List (String × String)
deriving DecidableEq, Repr

/-- The buyer catchphrase keys read by `CobraBuyer`; a `none` field models
a missing dictionary key. -/
structure BuyerPhrases where
  opening : Option String
  standard : Option String
  mid_round : Option String
  final : Option String
deriving DecidableEq, Repr

/-- The `CobraBuyer` configuration keys; a `none` field models a missing
key, read through `Option.getD` exactly as the source reads
`config.get(key, default)`. -/
structure BuyerConfig where
  accept_threshold_percentage : Option ℚ
  early_round_multiplier : Option ℚ
  mid_round_multiplier : Option ℚ
  force_close_round : Option ℤ
  catchphrases : Option BuyerPhrases
deriving DecidableEq, Repr

/-- The seller catchphrase keys read by `CobraSeller`. -/
structure SellerPhrases where
  opening : Option String
  force_close : Option String
  mid_round : Option String
  early_round : Option String
deriving DecidableEq, Repr

/-- The `CobraSeller` configuration keys. -/
structure SellerConfig where
  opening_multiplier : Option ℚ
  early_round_multiplier : Option ℚ
  mid_round_multiplier : Option ℚ
  force_close_round : Option ℤ
  catchphrases : Option SellerPhrases
  extras : Option (List String)
deriving DecidableEq, Repr

/-- `tpl.format(price=price)`: substitute the price placeholder. -/
def formatPrice (tpl : String) (price : ℤ) : String :=
  tpl.replace "{price}" (toString price)

/-- `CobraBuyer.generate_opening_offer`. -/
def generate_opening_offer (cfg : BuyerConfig) (context : NegotiationContext) :
    ℤ × String :=
  let early_mult := cfg.early_round_multiplier.getD (mkRat 85 100)
  let offer := min (truncMul context.product.base_market_price early_mult)
    context.your_budget
  let msg_tpl := (cfg.catchphrases.bind BuyerPhrases.opening).getD "Starting at ₹{price}."
  (offer, formatPrice msg_tpl offer)

/-- `CobraBuyer.respond_to_seller_offer`. -/
def respond_to_seller_offer (cfg : BuyerConfig) (context : NegotiationContext)
    (seller_price : ℤ) (seller_message : String) : DealStatus × ℤ × String :=
  let round_num := context.current_round
  let acc_pct := cfg.accept_threshold_percentage.getD (mkRat 9 10)
  let early_mult := cfg.early_round_multiplier.getD (mkRat 85 100)
  let mid_mult := cfg.mid_round_multiplier.getD (mkRat 92 100)
  let force_round := cfg.force_close_round.getD 10
  let phrases := cfg.catchphrases
  let threshold := truncMul context.product.base_market_price acc_pct
  if seller_price ≤ threshold ∧ seller_price ≤ context.your_budget then
    (DealStatus.ACCEPTED, seller_price,
      "Deal accepted at ₹" ++ toString seller_price ++ "! Let\x27s finalize.")
  else if round_num ≥ force_round then
    let final_offer := min seller_price context.your_budget
    let msg := formatPrice ((phrases.bind BuyerPhrases.final).getD
      "Final from me: ₹{price}. Can we sign today?") final_offer
    (DealStatus.ONGOING, final_offer, msg)
  else if round_num ≥ force_round - 3 then
    let counter_offer := min (truncMul seller_price mid_mult) context.your_budget
    let message := formatPrice ((phrases.bind BuyerPhrases.mid_round).getD
      "Let’s wrap at ₹{price}.") counter_offer
    (DealStatus.ONGOING, counter_offer, message)
  else
    let counter_offer := min (truncMul seller_price early_mult) context.your_budget
    let message := formatPrice ((phrases.bind BuyerPhrases.standard).getD
      "I can do ₹{price}.") counter_offer
    (DealStatus.ONGOING, counter_offer, message)

/-- The `CobraSeller` object: its non-negotiable floor `min_price`, its
configuration, and the mutable `opening_price` field (set by
`get_opening_price`, `none` until then). -/
structure CobraSeller where
  name : String
  min_price : ℤ
  config : SellerConfig
  opening_price : Option ℤ
deriving DecidableEq, Repr

/-- `CobraSeller.get_opening_price`; returns the updated seller (with
`opening_price` recorded) together with the price and message. -/
def get_opening_price (s : CobraSeller) (product : Product) :
    CobraSeller × ℤ × String :=
  let opening_mult := s.config.opening_multiplier.getD (mkRat 12 10)
  let op := truncMul product.base_market_price opening_mult
  let msg_tpl := (s.config.catchphrases.bind SellerPhrases.opening).getD
    "{quality_grade} {product_name} at ₹{price}."
  let message := ((msg_tpl.replace "{quality_grade}" product.quality_grade).replace
    "{product_name}" product.name).replace "{price}" (toString op)
  ({ s with opening_price := some op }, op, message)

/-- `CobraSeller.respond_to_buyer`.  In the source the mid/early branches
compute the counter and message and then share a single clamp by the
opening price; the clamp is inlined into each branch here, after the
message is rendered, preserving the order of operations. -/
def respond_to_buyer (s : CobraSeller) (buyer_offer : ℤ) (round_num : ℤ) :
    ℤ × String × Bool :=
  let early_mult := s.config.early_round_multiplier.getD (mkRat 11 10)
  let mid_mult := s.config.mid_round_multiplier.getD (mkRat 104 100)
  let force_round := s.config.force_close_round.getD 10
  let phrases := s.config.catchphrases
  let extras_list := s.config.extras.getD []
  let extras := if extras_list.isEmpty then "" else String.intercalate ", " extras_list
  if buyer_offer ≥ s.min_price then
    (buyer_offer, "You have a deal at ₹" ++ toString buyer_offer ++ "!", true)
  else if round_num ≥ force_round then
    let counter := max s.min_price buyer_offer
    let msg := formatPrice ((phrases.bind SellerPhrases.force_close).getD
      "Last price ₹{price}.") counter
    let counter := match s.opening_price with
      | some op => min counter op
      | none => counter
    (counter, msg, false)
  else if round_num ≥ force_round - 3 then
    let counter := max s.min_price (truncMul buyer_offer mid_mult)
    let msg := (formatPrice ((phrases.bind SellerPhrases.mid_round).getD
      "₹{price} including {extras}.") counter).replace "{extras}" extras
    let counter := match s.opening_price with
      | some op => min counter op
      | none => counter
    (counter, msg, false)
  else
    let counter := max s.min_price (truncMul buyer_offer early_mult)
    let msg := (formatPrice ((phrases.bind SellerPhrases.early_round).getD
      "₹{price} including {extras}.") counter).replace "{extras}" extras
    let counter := match s.opening_price with
      | some op => min counter op
      | none => counter
    (counter, msg, false)

/-- The local variables of the driver loops in `test_buyer_scenarios` and
`test_seller_scenarios`: the shared context, the seller object, the last
seller offer/message, the last buyer offer, the buyer's last status and
the seller's accept flag. -/
structure SessionState where
  ctx : NegotiationContext
  seller : CobraSeller
  seller_offer : ℤ
  seller_msg : String
  buyer_offer : ℤ
  status : DealStatus
  accepted : Bool
deriving DecidableEq, Repr

/-- The pre-loop part of `test_buyer_scenarios`: context at round 1,
buyer opening move, seller response, both recorded. -/
def initBuyerFirst (bcfg : BuyerConfig) (scfg : SellerConfig) (product : Product)
    (budget min_price : ℤ) : SessionState :=
  let ctx0 : NegotiationContext := ⟨product, budget, 1, [], [], []⟩
  let seller0 : CobraSeller := ⟨"Cobra-Seller", min_price, scfg, none⟩
  let ob := generate_opening_offer bcfg ctx0
  let ctx1 := { ctx0 with your_offers := ctx0.your_offers ++ [ob.1],
                          messages := ctx0.messages ++ [("buyer", ob.2)] }
  let rs := respond_to_buyer seller0 ob.1 ctx1.current_round
  let ctx2 := { ctx1 with seller_offers := ctx1.seller_offers ++ [rs.1],
                          messages := ctx1.messages ++ [("seller", rs.2.1)] }
  ⟨ctx2, seller0, rs.1, rs.2.1, ob.1, DealStatus.ONGOING, rs.2.2⟩

/-- One iteration of the `test_buyer_scenarios` while-loop: increment the
round, buyer responds (recorded; loop breaks on ACCEPTED), otherwise the
seller responds (recorded). -/
def stepBuyerFirst (bcfg : BuyerConfig) (st : SessionState) : SessionState :=
  let ctx := { st.ctx with current_round := st.ctx.current_round + 1 }
  let br := respond_to_seller_offer bcfg ctx st.seller_offer st.seller_msg
  let ctx1 := { ctx with your_offers := ctx.your_offers ++ [br.2.1],
                         messages := ctx.messages ++ [("buyer", br.2.2)] }
  if br.1 = DealStatus.ACCEPTED then
    { st with ctx := ctx1, buyer_offer := br.2.1, status := br.1 }
  else
    let rs := respond_to_buyer st.seller br.2.1 ctx1.current_round
    let ctx2 := { ctx1 with seller_offers := ctx1.seller_offers ++ [rs.1],
                            messages := ctx1.messages ++ [("seller", rs.2.1)] }
    { st with ctx := ctx2, buyer_offer := br.2.1, status := br.1,
              seller_offer := rs.1, seller_msg := rs.2.1, accepted := rs.2.2 }

/-- The driver while-loop, fuelled: continue exactly while neither party
has accepted and `current_round < 10` (both drivers use this guard; the
in-body `break` statements are captured by the acceptance conjuncts). -/
def loopSession (stepF : SessionState → SessionState) : ℕ → SessionState → SessionState
  | 0, st => st
  | n+1, st =>
    if st.accepted = false ∧ st.status ≠ DealStatus.ACCEPTED ∧ st.ctx.current_round < 10 then
      loopSession stepF n (stepF st)
    else st

/-- `test_buyer_scenarios`, generalized over the configurations, product,
budget and seller minimum price; `fuel` bounds the number of loop
iterations (9 reproduces the source, and the state is unchanged for any
larger fuel). -/
def runBuyerFirst (bcfg : BuyerConfig) (scfg : SellerConfig) (product : Product)
    (budget min_price : ℤ) (fuel : ℕ) : SessionState :=
  loopSession (stepBuyerFirst bcfg) fuel (initBuyerFirst bcfg scfg product budget min_price)

/-- The pre-loop part of `test_seller_scenarios`: context at round 1,
seller opening price (recorded, and `opening_price` now set), buyer
response (recorded). -/
def initSellerFirst (bcfg : BuyerConfig) (scfg : SellerConfig) (product : Product)
    (budget min_price : ℤ) : SessionState :=
  let ctx0 : NegotiationContext := ⟨product, budget, 1, [], [], []⟩
  let seller0 : CobraSeller := ⟨"Cobra-Seller", min_price, scfg, none⟩
  let gp := get_opening_price seller0 product
  let ctx1 := { ctx0 with seller_offers := ctx0.seller_offers ++ [gp.2.1],
                          messages := ctx0.messages ++ [("seller", gp.2.2)] }
  let br := respond_to_seller_offer bcfg ctx1 gp.2.1 gp.2.2
  let ctx2 := { ctx1 with your_offers := ctx1.your_offers ++ [br.2.1],
                          messages := ctx1.messages ++ [("buyer", br.2.2)] }
  ⟨ctx2, gp.1, gp.2.1, gp.2.2, br.2.1, br.1, false⟩

/-- One iteration of the `test_seller_scenarios` while-loop: increment
the round, seller responds (recorded; loop breaks on acceptance),
otherwise the buyer responds (recorded). -/
def stepSellerFirst (bcfg : BuyerConfig) (st : SessionState) : SessionState :=
  let ctx := { st.ctx with current_round := st.ctx.current_round + 1 }
  let rs := respond_to_buyer st.seller st.buyer_offer ctx.current_round
  let ctx1 := { ctx with seller_offers := ctx.seller_offers ++ [rs.1],
                         messages := ctx.messages ++ [("seller", rs.2.1)] }
  if rs.2.2 = true then
    { st with ctx := ctx1, seller_offer := rs.1, seller_msg := rs.2.1, accepted := rs.2.2 }
  else
    let br := respond_to_seller_offer bcfg ctx1 rs.1 rs.2.1
    let ctx2 := { ctx1 with your_offers := ctx1.your_offers ++ [br.2.1],
                            messages := ctx1.messages ++ [("buyer", br.2.2)] }
    { st with ctx := ctx2, seller_offer := rs.1, seller_msg := rs.2.1,
              buyer_offer := br.2.1, status := br.1, accepted := rs.2.2 }

/-- `test_seller_scenarios`, generalized like `runBuyerFirst`. -/
def runSellerFirst (bcfg : BuyerConfig) (scfg : SellerConfig) (product : Product)
    (budget min_price : ℤ) (fuel : ℕ) : SessionState :=
  loopSession (stepSellerFirst bcfg) fuel (initSellerFirst bcfg scfg product budget min_price)

/-- A buyer configuration with every key missing. -/
def emptyBuyerConfig : BuyerConfig := ⟨none, none, none, none, none⟩

/-- A seller configuration with every key missing. -/
def emptySellerConfig : SellerConfig := ⟨none, none, none, none, none, none⟩

/-- The product of the test scenarios. -/
def mangoProduct : Product :=
  ⟨"Alphonso Mangoes", "Mangoes", 100, "A", "Ratnagiri", 180000⟩

/-- The three-phase upper bound on a non-accepting buyer counter at round
`r` against seller price `s` (the budget cap only lowers it further). -/
def buyerCap (F r : ℤ) (βe βm : ℚ) (s : ℤ) : ℤ :=
  if F ≤ r then s else if F - 3 ≤ r then truncMul s βm else truncMul s βe

/-- The seller's counter before the opening-price clamp, per phase. -/
def sellerCounterRaw (sell : CobraSeller) (b r : ℤ) : ℤ :=
  if sell.config.force_close_round.getD 10 ≤ r then max sell.min_price b
  else if sell.config.force_close_round.getD 10 - 3 ≤ r then
    max sell.min_price (truncMul b (sell.config.mid_round_multiplier.getD (mkRat 104 100)))
  else
    max sell.min_price (truncMul b (sell.config.early_round_multiplier.getD (mkRat 11 10)))

/-- The running lower bound on seller prices: `min_price`, lowered to
`min min_price opening` once an opening price is recorded. -/
def sellerFloor (s : CobraSeller) : ℤ :=
  match s.opening_price with
  | none => s.min_price
  | some op => min s.min_price op

/-- Session invariant giving the amended C1/C2 bounds. -/
def DealInv (budget : ℤ) (sell : CobraSeller) (st : SessionState) : Prop :=
  st.seller = sell ∧
  st.ctx.your_budget = budget ∧
  (∀ x ∈ st.ctx.your_offers, x ≤ budget) ∧
  sellerFloor sell ≤ st.seller_offer ∧
  (∀ x ∈ st.ctx.seller_offers, sellerFloor sell ≤ x) ∧
  st.buyer_offer ≤ budget ∧
  (st.accepted = true → sell.min_price ≤ st.seller_offer ∧ st.seller_offer ≤ budget) ∧
  (st.status = DealStatus.ACCEPTED →
    sellerFloor sell ≤ st.buyer_offer ∧ st.buyer_offer ≤ budget)

/-- Invariant for the amended C3 in the buyer-first driver: seller offers
form a non-increasing chain bounded below by the seller floor. -/
def MonoInvBF (budget : ℤ) (sell : CobraSeller) (st : SessionState) : Prop :=
  st.seller = sell ∧
  st.ctx.your_budget = budget ∧
  sellerFloor sell ≤ st.seller_offer ∧
  0 ≤ st.seller_offer ∧
  (∀ x ∈ st.ctx.seller_offers, sellerFloor sell ≤ x) ∧
  st.ctx.seller_offers.getLast? = some st.seller_offer ∧
  List.Chain' (fun a b => b ≤ a) st.ctx.seller_offers

/-- Additional components for the seller-first driver: the opening-price
ceiling and the carried cap on the pending buyer offer. -/
def MonoInvSF (budget : ℤ) (sell : CobraSeller) (op : ℤ) (βe βm : ℚ)
    (st : SessionState) : Prop :=
  MonoInvBF budget sell st ∧
  st.seller_offer ≤ op ∧
  (∀ x ∈ st.ctx.seller_offers, x ≤ op) ∧
  (st.accepted = false → st.status ≠ DealStatus.ACCEPTED →
    st.buyer_offer ≤ buyerCap (sell.config.force_close_round.getD 10)
      st.ctx.current_round βe βm st.seller_offer ∧ 0 ≤ st.buyer_offer)

/-- The seller's counter message as the source renders it: from the
pre-clamp counter `sellerCounterRaw`, never from the clamped price. -/
def sellerMsgRaw (sell : CobraSeller) (b r : ℤ) : String :=
  let extras_list := sell.config.extras.getD []
  let extras := if extras_list.isEmpty then "" else String.intercalate ", " extras_list
  if sell.config.force_close_round.getD 10 ≤ r then
    formatPrice ((sell.config.catchphrases.bind SellerPhrases.force_close).getD
      "Last price ₹{price}.") (sellerCounterRaw sell b r)
  else if sell.config.force_close_round.getD 10 - 3 ≤ r then
    (formatPrice ((sell.config.catchphrases.bind SellerPhrases.mid_round).getD
      "₹{price} including {extras}.") (sellerCounterRaw sell b r)).replace
      "{extras}" extras
  else
    (formatPrice ((sell.config.catchphrases.bind SellerPhrases.early_round).getD
      "₹{price} including {extras}.") (sellerCounterRaw sell b r)).replace
      "{extras}" extras

/-- The documented defaults for the buyer catchphrases, filled in for the
missing keys. -/
def fillBuyerPhrases (c : BuyerPhrases) : BuyerPhrases :=
  ⟨some (c.opening.getD "Starting at ₹{price}."),
    some (c.standard.getD "I can do ₹{price}."),
    some (c.mid_round.getD "Let’s wrap at ₹{price}."),
    some (c.final.getD "Final from me: ₹{price}. Can we sign today?")⟩

/-- The documented defaults for the buyer configuration, filled in for the
missing keys. -/
def fillBuyerConfig (cfg : BuyerConfig) : BuyerConfig :=
  ⟨some (cfg.accept_threshold_percentage.getD (mkRat 9 10)),
    some (cfg.early_round_multiplier.getD (mkRat 85 100)),
    some (cfg.mid_round_multiplier.getD (mkRat 92 100)),
    some (cfg.force_close_round.getD 10),
    some (fillBuyerPhrases (cfg.catchphrases.getD ⟨none, none, none, none⟩))⟩

/-- The documented defaults for the seller catchphrases, filled in for the
missing keys. -/
def fillSellerPhrases (c : SellerPhrases) : SellerPhrases :=
  ⟨some (c.opening.getD "{quality_grade} {product_name} at ₹{price}."),
    some (c.force_close.getD "Last price ₹{price}."),
    some (c.mid_round.getD "₹{price} including {extras}."),
    some (c.early_round.getD "₹{price} including {extras}.")⟩

/-- The documented defaults for the seller configuration, filled in for the
missing keys. -/
def fillSellerConfig (cfg : SellerConfig) : SellerConfig :=
  ⟨some (cfg.opening_multiplier.getD (mkRat 12 10)),
    some (cfg.early_round_multiplier.getD (mkRat 11 10)),
    some (cfg.mid_round_multiplier.getD (mkRat 104 100)),
    some (cfg.force_close_round.getD 10),
    some (fillSellerPhrases (cfg.catchphrases.getD ⟨none, none, none, none⟩)),
    some (cfg.extras.getD [])⟩


/-! ## Arithmetic bridge lemmas -/


lemma truncMul_eq_floor (p : ℤ) (m : ℚ) (hp : 0 ≤ p) (hm : 0 ≤ m) :
    truncMul p m = ⌊(p : ℚ) * m⌋ := by
  have hnum : 0 ≤ m.num := Rat.num_nonneg.mpr hm
  have h1 : truncMul p m = (p * m.num) / (m.den : ℤ) :=
    Int.tdiv_eq_ediv (mul_nonneg hp hnum) (Int.ofNat_nonneg _)
  have h2 : (p : ℚ) * m = ((p * m.num : ℤ) : ℚ) / ((m.den : ℕ) : ℚ) := by
    conv_lhs => rw [← Rat.num_div_den m]
    push_cast
    ring
  rw [h1, h2, Rat.floor_intCast_div_natCast]

lemma truncMul_eq_pyTrunc (p : ℤ) (m : ℚ) : truncMul p m = pyTrunc ((p : ℚ) * m) := by
  rcases le_or_lt 0 (p * m.num) with h | h
  · have hq : 0 ≤ (p : ℚ) * m := by
      have : (0 : ℚ) ≤ ((p * m.num : ℤ) : ℚ) / ((m.den : ℕ) : ℚ) := by
        apply div_nonneg
        · exact_mod_cast h
        · positivity
      calc (0 : ℚ) ≤ ((p * m.num : ℤ) : ℚ) / ((m.den : ℕ) : ℚ) := this
        _ = (p : ℚ) * m := by
            conv_rhs => rw [← Rat.num_div_den m]
            push_cast
            ring
    rw [pyTrunc, if_pos hq]
    have h1 : truncMul p m = (p * m.num) / (m.den : ℤ) :=
      Int.tdiv_eq_ediv h (Int.ofNat_nonneg _)
    have h2 : (p : ℚ) * m = ((p * m.num : ℤ) : ℚ) / ((m.den : ℕ) : ℚ) := by
      conv_lhs => rw [← Rat.num_div_den m]
      push_cast
      ring
    rw [h1, h2, Rat.floor_intCast_div_natCast]
  · have hq : ¬ (0 : ℚ) ≤ (p : ℚ) * m := by
      have hlt : ((p : ℚ)) * m < 0 := by
        have : ((p * m.num : ℤ) : ℚ) / ((m.den : ℕ) : ℚ) < 0 := by
          apply div_neg_of_neg_of_pos
          · exact_mod_cast h
          · have := m.den_nz
            positivity
        calc (p : ℚ) * m = ((p * m.num : ℤ) : ℚ) / ((m.den : ℕ) : ℚ) := by
              conv_lhs => rw [← Rat.num_div_den m]
              push_cast
              ring
          _ < 0 := this
      linarith
    rw [pyTrunc, if_neg hq]
    have hneg : truncMul p m = -((-(p * m.num)).tdiv (m.den : ℤ)) := by
      rw [truncMul, ← Int.neg_tdiv, neg_neg]
    rw [hneg, Int.tdiv_eq_ediv (by omega) (Int.ofNat_nonneg _)]
    have h2 : -((p : ℚ) * m) = ((-(p * m.num) : ℤ) : ℚ) / ((m.den : ℕ) : ℚ) := by
      conv_lhs => rw [← Rat.num_div_den m]
      push_cast
      ring
    rw [show ((p : ℚ) * m) = -(-((p : ℚ) * m)) by ring, Int.ceil_neg, h2,
      Rat.floor_intCast_div_natCast]

lemma truncMul_nonneg {p : ℤ} {m : ℚ} (hp : 0 ≤ p) (hm : 0 ≤ m) : 0 ≤ truncMul p m :=
  Int.tdiv_nonneg (mul_nonneg hp (Rat.num_nonneg.mpr hm)) (Int.ofNat_nonneg _)

lemma truncMul_le_self {p : ℤ} {m : ℚ} (hp : 0 ≤ p) (hm0 : 0 ≤ m) (hm1 : m ≤ 1) :
    truncMul p m ≤ p := by
  rw [truncMul_eq_floor p m hp hm0]
  have hcast : (0 : ℚ) ≤ (p : ℚ) := by exact_mod_cast hp
  calc ⌊(p : ℚ) * m⌋ ≤ ⌊(p : ℚ)⌋ := by
        apply Int.floor_le_floor
        nlinarith
    _ = p := Int.floor_intCast p

lemma le_truncMul_cast {b p : ℤ} {m : ℚ} (hp : 0 ≤ p) (hm : 0 ≤ m)
    (h : b ≤ truncMul p m) : (b : ℚ) ≤ (p : ℚ) * m := by
  rw [truncMul_eq_floor p m hp hm] at h
  exact_mod_cast le_trans (Int.cast_le.mpr h) (Int.floor_le _)

lemma truncMul_chain {s b : ℤ} {β σ : ℚ} (hs : 0 ≤ s) (hb0 : 0 ≤ b)
    (hb : (b : ℚ) ≤ (s : ℚ) * β) (hσ : 0 ≤ σ) (hprod : σ * β ≤ 1) :
    truncMul b σ ≤ s := by
  rw [truncMul_eq_floor b σ hb0 hσ]
  calc ⌊(b : ℚ) * σ⌋ ≤ ⌊(s : ℚ) * β * σ⌋ :=
        Int.floor_le_floor (mul_le_mul_of_nonneg_right hb hσ)
    _ ≤ ⌊(s : ℚ)⌋ := by
        apply Int.floor_le_floor
        have hcast : (0 : ℚ) ≤ (s : ℚ) := by exact_mod_cast hs
        nlinarith
    _ = s := Int.floor_intCast s


/-! ## Decision-function characterizations -/

/-- Helper: the buyer accepts iff the seller price is within both the
threshold and the budget. -/
lemma respond_status_eq (cfg : BuyerConfig) (context : NegotiationContext)
    (seller_price : ℤ) (seller_message : String) :
    (respond_to_seller_offer cfg context seller_price seller_message).1 = DealStatus.ACCEPTED ↔
      (seller_price ≤ truncMul context.product.base_market_price
          (cfg.accept_threshold_percentage.getD (mkRat 9 10)) ∧
        seller_price ≤ context.your_budget) := by
  simp only [respond_to_seller_offer]
  split_ifs with h1 h2 h3 <;> simp [h1]

/-- Helper: when the buyer accepts, the returned price is the seller's price. -/
lemma respond_price_of_accept (cfg : BuyerConfig) (context : NegotiationContext)
    (seller_price : ℤ) (seller_message : String)
    (h : (respond_to_seller_offer cfg context seller_price seller_message).1 =
      DealStatus.ACCEPTED) :
    (respond_to_seller_offer cfg context seller_price seller_message).2.1 = seller_price := by
  simp only [respond_to_seller_offer] at *
  split_ifs at h ⊢ <;> simp_all

/-- Helper: every buyer response price is at most the budget. -/
lemma respond_price_le_budget (cfg : BuyerConfig) (context : NegotiationContext)
    (seller_price : ℤ) (seller_message : String) :
    (respond_to_seller_offer cfg context seller_price seller_message).2.1 ≤
      context.your_budget := by
  simp only [respond_to_seller_offer]
  split_ifs with h1 h2 h3 <;> simp_all [min_le_right]

/-- Helper: a non-accepting buyer response is bounded by `buyerCap`. -/
lemma respond_price_le_cap (cfg : BuyerConfig) (context : NegotiationContext)
    (seller_price : ℤ) (seller_message : String)
    (h : (respond_to_seller_offer cfg context seller_price seller_message).1 ≠
      DealStatus.ACCEPTED) :
    (respond_to_seller_offer cfg context seller_price seller_message).2.1 ≤
      buyerCap (cfg.force_close_round.getD 10) context.current_round
        (cfg.early_round_multiplier.getD (mkRat 85 100))
        (cfg.mid_round_multiplier.getD (mkRat 92 100)) seller_price := by
  simp only [respond_to_seller_offer, buyerCap] at *
  split_ifs at h ⊢ <;> simp_all [min_le_left] <;> omega

/-- Helper: a non-accepting buyer response is nonnegative when the seller
price, budget and multipliers are. -/
lemma respond_price_nonneg (cfg : BuyerConfig) (context : NegotiationContext)
    (seller_price : ℤ) (seller_message : String)
    (hsp : 0 ≤ seller_price) (hbud : 0 ≤ context.your_budget)
    (hβe : 0 ≤ cfg.early_round_multiplier.getD (mkRat 85 100))
    (hβm : 0 ≤ cfg.mid_round_multiplier.getD (mkRat 92 100))
    (h : (respond_to_seller_offer cfg context seller_price seller_message).1 ≠
      DealStatus.ACCEPTED) :
    0 ≤ (respond_to_seller_offer cfg context seller_price seller_message).2.1 := by
  simp only [respond_to_seller_offer] at *
  split_ifs at h ⊢ <;>
    simp_all [le_min_iff, truncMul_nonneg hsp hβm, truncMul_nonneg hsp hβe]

/-- Helper: buyer responses that do not accept have status ONGOING. -/
lemma respond_status_ongoing (cfg : BuyerConfig) (context : NegotiationContext)
    (seller_price : ℤ) (seller_message : String)
    (h : (respond_to_seller_offer cfg context seller_price seller_message).1 ≠
      DealStatus.ACCEPTED) :
    (respond_to_seller_offer cfg context seller_price seller_message).1 =
      DealStatus.ONGOING := by
  simp only [respond_to_seller_offer] at *
  split_ifs at h ⊢ <;> simp_all

/-- Helper: the seller accepts exactly when the buyer offer reaches the
minimum price. -/
lemma respond_to_buyer_accept_iff (s : CobraSeller) (buyer_offer round_num : ℤ) :
    (respond_to_buyer s buyer_offer round_num).2.2 = true ↔
      s.min_price ≤ buyer_offer := by
  simp only [respond_to_buyer]
  split_ifs with h1 h2 h3 <;> simp_all [ge_iff_le]

/-- Helper: when the seller accepts, the returned price is the buyer offer. -/
lemma respond_to_buyer_accept_price (s : CobraSeller) (buyer_offer round_num : ℤ)
    (h : s.min_price ≤ buyer_offer) :
    (respond_to_buyer s buyer_offer round_num).1 = buyer_offer := by
  simp only [respond_to_buyer]
  split_ifs with h1 <;> simp_all [ge_iff_le]

/-- Helper: with no opening price recorded, every seller response price is
at least the minimum price. -/
lemma respond_to_buyer_lb_none (s : CobraSeller) (buyer_offer round_num : ℤ)
    (hop : s.opening_price = none) :
    s.min_price ≤ (respond_to_buyer s buyer_offer round_num).1 := by
  simp only [respond_to_buyer]
  split_ifs with h1 h2 h3 <;> simp_all [le_max_left, ge_iff_le]

/-- Helper: with an opening price recorded, every seller response price is
at least `min min_price opening`, and non-accepting responses are at most
the opening price. -/
lemma respond_to_buyer_lb_ub_some (s : CobraSeller) (buyer_offer round_num op : ℤ)
    (hop : s.opening_price = some op) :
    min s.min_price op ≤ (respond_to_buyer s buyer_offer round_num).1 ∧
      ((respond_to_buyer s buyer_offer round_num).2.2 = false →
        (respond_to_buyer s buyer_offer round_num).1 ≤ op) := by
  simp only [respond_to_buyer, hop]
  split_ifs with h1 h2 h3 <;>
    simp_all [ge_iff_le, le_min_iff, min_le_right, min_le_left] <;>
    constructor <;> omega

/-- Helper: closed form of the seller's response price: the buyer offer on
acceptance, otherwise the phase counter clamped by the opening price. -/
lemma respond_to_buyer_price_eq (sell : CobraSeller) (b r : ℤ) :
    (respond_to_buyer sell b r).1 =
      if sell.min_price ≤ b then b
      else Option.elim sell.opening_price (sellerCounterRaw sell b r)
        (fun op => min (sellerCounterRaw sell b r) op) := by
  rcases hop : sell.opening_price with _ | op <;>
    · simp only [respond_to_buyer, sellerCounterRaw, hop, ge_iff_le]
      split_ifs <;> simp_all

lemma buyerCap_le_self (F r : ℤ) {βe βm : ℚ} {s : ℤ} (hs : 0 ≤ s)
    (hβe0 : 0 ≤ βe) (hβe1 : βe ≤ 1) (hβm0 : 0 ≤ βm) (hβm1 : βm ≤ 1) :
    buyerCap F r βe βm s ≤ s := by
  unfold buyerCap
  split_ifs
  · exact le_refl s
  · exact truncMul_le_self hs hβm0 hβm1
  · exact truncMul_le_self hs hβe0 hβe1

/-- Helper: the floor of seller prices is below every seller response. -/
lemma sellerFloor_le_respond (sell : CobraSeller) (b r : ℤ) :
    sellerFloor sell ≤ (respond_to_buyer sell b r).1 := by
  rw [respond_to_buyer_price_eq]
  have hraw : sell.min_price ≤ sellerCounterRaw sell b r := by
    unfold sellerCounterRaw
    split_ifs <;> omega
  rcases hop : sell.opening_price with _ | op <;>
    simp only [sellerFloor, hop, Option.elim] <;> split_ifs <;> omega

/-- Helper: under the contraction hypotheses on the multipliers, a seller
response to a capped buyer offer never exceeds the previous seller price. -/
lemma respond_to_buyer_le_prev (sell : CobraSeller) (b r₁ r₂ s_prev : ℤ)
    {βe βm : ℚ}
    (hβe0 : 0 ≤ βe) (hβe1 : βe ≤ 1) (hβm0 : 0 ≤ βm) (hβm1 : βm ≤ 1)
    (hσe : 0 ≤ sell.config.early_round_multiplier.getD (mkRat 11 10))
    (hσm : 0 ≤ sell.config.mid_round_multiplier.getD (mkRat 104 100))
    (hee : sell.config.early_round_multiplier.getD (mkRat 11 10) * βe ≤ 1)
    (hmm : sell.config.mid_round_multiplier.getD (mkRat 104 100) * βm ≤ 1)
    (hme : sell.config.mid_round_multiplier.getD (mkRat 104 100) * βe ≤ 1)
    (hmf : sellerFloor sell ≤ s_prev) (hs0 : 0 ≤ s_prev) (hb0 : 0 ≤ b)
    (hcap : b ≤ buyerCap (sell.config.force_close_round.getD 10) r₁ βe βm s_prev)
    (hr : r₁ ≤ r₂) :
    (respond_to_buyer sell b r₂).1 ≤ s_prev := by
  set σe := sell.config.early_round_multiplier.getD (mkRat 11 10) with hσedef
  set σm := sell.config.mid_round_multiplier.getD (mkRat 104 100) with hσmdef
  set F := sell.config.force_close_round.getD 10 with hFdef
  have hble : b ≤ s_prev :=
    le_trans hcap (buyerCap_le_self F r₁ hs0 hβe0 hβe1 hβm0 hβm1)
  rw [respond_to_buyer_price_eq]
  split_ifs with h1
  · exact hble
  · -- counter branch; bound the pre-clamp counter unless it is min_price
    have hraw : sellerCounterRaw sell b r₂ ≤ max sell.min_price s_prev := by
      unfold sellerCounterRaw
      rw [← hσedef, ← hσmdef, ← hFdef]
      split_ifs with hf hm
      · -- final phase: counter = max min_price b with b < min_price
        omega
      · -- mid phase at round r₂; the buyer offer was capped at round r₁ ≤ r₂ < F
        have hr₁F : ¬ F ≤ r₁ := by omega
        have htm : truncMul b σm ≤ s_prev := by
          by_cases hmid : F - 3 ≤ r₁
          · have hcapv : b ≤ truncMul s_prev βm := by
              simpa [buyerCap, hr₁F, hmid] using hcap
            exact truncMul_chain hs0 hb0 (le_truncMul_cast hs0 hβm0 hcapv) hσm hmm
          · have hcapv : b ≤ truncMul s_prev βe := by
              simpa [buyerCap, hr₁F, hmid] using hcap
            exact truncMul_chain hs0 hb0 (le_truncMul_cast hs0 hβe0 hcapv) hσm hme
        omega
      · -- early phase at round r₂, hence also at round r₁
        have hr₁F : ¬ F ≤ r₁ := by omega
        have hr₁m : ¬ F - 3 ≤ r₁ := by omega
        have hcapv : b ≤ truncMul s_prev βe := by
          simpa [buyerCap, hr₁F, hr₁m] using hcap
        have htm : truncMul b σe ≤ s_prev :=
          truncMul_chain hs0 hb0 (le_truncMul_cast hs0 hβe0 hcapv) hσe hee
        omega
    have hrawlb : sell.min_price ≤ sellerCounterRaw sell b r₂ := by
      unfold sellerCounterRaw
      split_ifs <;> omega
    rcases hop : sell.opening_price with _ | op
    · have hfl : sellerFloor sell = sell.min_price := by simp [sellerFloor, hop]
      simp only [hop, Option.elim]
      omega
    · have hfl : sellerFloor sell = min sell.min_price op := by simp [sellerFloor, hop]
      simp only [hop, Option.elim]
      omega


/-! ## Loop lemmas -/

/-- An invariant preserved by the loop body under the guard is preserved
by the whole loop. -/
lemma loopSession_invariant {P : SessionState → Prop} {f : SessionState → SessionState}
    (hstep : ∀ st, P st → st.accepted = false → st.status ≠ DealStatus.ACCEPTED →
      st.ctx.current_round < 10 → P (f st)) :
    ∀ (n : ℕ) (st : SessionState), P st → P (loopSession f n st)
  | 0, _, h => h
  | n + 1, st, h => by
    rw [loopSession]
    split_ifs with hc
    · exact loopSession_invariant hstep n (f st) (hstep st h hc.1 hc.2.1 hc.2.2)
    · exact h

/-- Once the guard fails, the loop is the identity. -/
lemma loopSession_stuck {f : SessionState → SessionState} {st : SessionState}
    (h : ¬ (st.accepted = false ∧ st.status ≠ DealStatus.ACCEPTED ∧
      st.ctx.current_round < 10)) :
    ∀ n, loopSession f n st = st
  | 0 => rfl
  | n + 1 => by rw [loopSession, if_neg h]

/-- Fuel splits: running `a + b` steps is running `a` then `b`. -/
lemma loopSession_add (f : SessionState → SessionState) :
    ∀ (a b : ℕ) (st : SessionState),
      loopSession f (a + b) st = loopSession f b (loopSession f a st)
  | 0, b, st => by simp [loopSession, Nat.zero_add]
  | a + 1, b, st => by
    rw [show a + 1 + b = (a + b) + 1 by omega, loopSession, loopSession]
    split_ifs with hc
    · exact loopSession_add f a b (f st)
    · exact (loopSession_stuck hc b).symm

/-- Both step functions advance the round counter by exactly one. -/
lemma stepBuyerFirst_round (bcfg : BuyerConfig) (st : SessionState) :
    (stepBuyerFirst bcfg st).ctx.current_round = st.ctx.current_round + 1 := by
  simp only [stepBuyerFirst]
  split_ifs <;> rfl

lemma stepSellerFirst_round (bcfg : BuyerConfig) (st : SessionState) :
    (stepSellerFirst bcfg st).ctx.current_round = st.ctx.current_round + 1 := by
  simp only [stepSellerFirst]
  split_ifs <;> rfl

/-- Round counter stays at most 10 along the loop. -/
lemma loopSession_round_le {f : SessionState → SessionState}
    (hf : ∀ st, (f st).ctx.current_round = st.ctx.current_round + 1) :
    ∀ (n : ℕ) (st : SessionState), st.ctx.current_round ≤ 10 →
      (loopSession f n st).ctx.current_round ≤ 10 := by
  intro n
  refine loopSession_invariant ?_ n
  intro st _ _ _ hlt
  rw [hf st]
  omega


/-! ## Bounds invariant: budget cap on buyer offers, floor on seller offers -/

lemma DealInv_stepBuyerFirst (bcfg : BuyerConfig) (budget : ℤ) (sell : CobraSeller)
    (st : SessionState) (h : DealInv budget sell st)
    (hacc : st.accepted = false) (hst : st.status ≠ DealStatus.ACCEPTED) :
    DealInv budget sell (stepBuyerFirst bcfg st) := by
  obtain ⟨h1, h2, h3, h4, h5, h6, h7, h8⟩ := h
  simp only [stepBuyerFirst]
  set ctx' : NegotiationContext := { st.ctx with current_round := st.ctx.current_round + 1 }
    with hctx'
  have hbud' : ctx'.your_budget = budget := h2
  set br := respond_to_seller_offer bcfg ctx' st.seller_offer st.seller_msg with hbr
  have hble : br.2.1 ≤ budget := hbud' ▸ respond_price_le_budget bcfg ctx' _ _
  split_ifs with hbacc
  · refine ⟨h1, h2, ?_, h4, h5, hble, ?_, ?_⟩
    · intro x hx
      rcases List.mem_append.mp hx with hx | hx
      · exact h3 x hx
      · rw [List.mem_singleton.mp hx]; exact hble
    · intro hc; rw [hacc] at hc; cases hc
    · intro _
      have := respond_price_of_accept bcfg ctx' st.seller_offer st.seller_msg hbacc
      rw [this]
      exact ⟨h4, hbud' ▸ h2 ▸ (by
        have := respond_status_eq bcfg ctx' st.seller_offer st.seller_msg |>.mp hbacc
        exact h2 ▸ this.2)⟩
  · set rs := respond_to_buyer st.seller br.2.1 ctx'.current_round with hrs
    refine ⟨h1, h2, ?_, ?_, ?_, hble, ?_, ?_⟩
    · intro x hx
      rcases List.mem_append.mp hx with hx | hx
      · exact h3 x hx
      · rw [List.mem_singleton.mp hx]; exact hble
    · rw [← h1]; exact sellerFloor_le_respond st.seller br.2.1 ctx'.current_round
    · intro x hx
      rcases List.mem_append.mp hx with hx | hx
      · exact h5 x hx
      · rw [List.mem_singleton.mp hx, ← h1]
        exact sellerFloor_le_respond st.seller br.2.1 ctx'.current_round
    · intro hc
      have hmin : st.seller.min_price ≤ br.2.1 :=
        (respond_to_buyer_accept_iff st.seller br.2.1 ctx'.current_round).mp hc
      have hpx : rs.1 = br.2.1 :=
        respond_to_buyer_accept_price st.seller br.2.1 ctx'.current_round hmin
      rw [hpx, ← h1]
      exact ⟨hmin, hble⟩
    · intro hc
      exact absurd hc hbacc

lemma DealInv_stepSellerFirst (bcfg : BuyerConfig) (budget : ℤ) (sell : CobraSeller)
    (st : SessionState) (h : DealInv budget sell st)
    (hacc : st.accepted = false) (hst : st.status ≠ DealStatus.ACCEPTED) :
    DealInv budget sell (stepSellerFirst bcfg st) := by
  obtain ⟨h1, h2, h3, h4, h5, h6, h7, h8⟩ := h
  simp only [stepSellerFirst]
  split_ifs with hsacc
  · refine ⟨h1, h2, h3, ?_, ?_, h6, ?_, ?_⟩
    · exact h1 ▸ sellerFloor_le_respond st.seller st.buyer_offer _
    · intro x hx
      rcases List.mem_append.mp hx with hx | hx
      · exact h5 x hx
      · rw [List.mem_singleton.mp hx]
        exact h1 ▸ sellerFloor_le_respond st.seller st.buyer_offer _
    · intro _
      have hmin : st.seller.min_price ≤ st.buyer_offer :=
        (respond_to_buyer_accept_iff st.seller st.buyer_offer _).mp hsacc
      rw [respond_to_buyer_accept_price st.seller st.buyer_offer _ hmin, ← h1]
      exact ⟨hmin, h6⟩
    · intro hc
      exact absurd hc hst
  · refine ⟨h1, h2, ?_, ?_, ?_, ?_, ?_, ?_⟩
    · intro x hx
      rcases List.mem_append.mp hx with hx | hx
      · exact h3 x hx
      · rw [List.mem_singleton.mp hx, ← h2]
        exact respond_price_le_budget bcfg _ _ _
    · exact h1 ▸ sellerFloor_le_respond st.seller st.buyer_offer _
    · intro x hx
      rcases List.mem_append.mp hx with hx | hx
      · exact h5 x hx
      · rw [List.mem_singleton.mp hx]
        exact h1 ▸ sellerFloor_le_respond st.seller st.buyer_offer _
    · rw [← h2]
      exact respond_price_le_budget bcfg _ _ _
    · intro hc
      simp only [Bool.not_eq_true] at hsacc
      rw [hsacc] at hc
      cases hc
    · intro hc
      have hcond := (respond_status_eq bcfg _ _ _).mp hc
      rw [respond_price_of_accept bcfg _ _ _ hc]
      refine ⟨h1 ▸ sellerFloor_le_respond st.seller st.buyer_offer _, ?_⟩
      rw [← h2]
      exact hcond.2

lemma DealInv_initBuyerFirst (bcfg : BuyerConfig) (scfg : SellerConfig)
    (product : Product) (budget min_price : ℤ) :
    DealInv budget ⟨"Cobra-Seller", min_price, scfg, none⟩
      (initBuyerFirst bcfg scfg product budget min_price) := by
  simp only [initBuyerFirst]
  have hoble : (generate_opening_offer bcfg ⟨product, budget, 1, [], [], []⟩).1 ≤ budget :=
    min_le_right _ _
  refine ⟨rfl, rfl, ?_, ?_, ?_, hoble, ?_, ?_⟩
  · intro x hx
    simp only [List.nil_append, List.mem_singleton] at hx
    rw [hx]
    exact hoble
  · exact sellerFloor_le_respond _ _ _
  · intro x hx
    simp only [List.nil_append, List.mem_singleton] at hx
    rw [hx]
    exact sellerFloor_le_respond _ _ _
  · intro hc
    have hmin := (respond_to_buyer_accept_iff _ _ _).mp hc
    rw [respond_to_buyer_accept_price _ _ _ hmin]
    exact ⟨hmin, hoble⟩
  · intro hc
    cases hc

lemma DealInv_initSellerFirst (bcfg : BuyerConfig) (scfg : SellerConfig)
    (product : Product) (budget min_price : ℤ) :
    DealInv budget
      ⟨"Cobra-Seller", min_price, scfg,
        some (truncMul product.base_market_price (scfg.opening_multiplier.getD (mkRat 12 10)))⟩
      (initSellerFirst bcfg scfg product budget min_price) := by
  have hflop : sellerFloor
      ⟨"Cobra-Seller", min_price, scfg,
        some (truncMul product.base_market_price
          (scfg.opening_multiplier.getD (mkRat 12 10)))⟩ ≤
      truncMul product.base_market_price (scfg.opening_multiplier.getD (mkRat 12 10)) := by
    simp [sellerFloor, min_le_right]
  simp only [initSellerFirst, get_opening_price]
  refine ⟨rfl, rfl, ?_, hflop, ?_, ?_, ?_, ?_⟩
  · intro x hx
    simp only [List.nil_append, List.mem_singleton] at hx
    rw [hx]
    exact respond_price_le_budget bcfg _ _ _
  · intro x hx
    simp only [List.nil_append, List.mem_singleton] at hx
    rw [hx]
    exact hflop
  · exact respond_price_le_budget bcfg _ _ _
  · intro hc
    cases hc
  · intro hc
    have hcond := (respond_status_eq bcfg _ _ _).mp hc
    rw [respond_price_of_accept bcfg _ _ _ hc]
    exact ⟨hflop, hcond.2⟩



/-! ## Monotonicity invariant for seller offers -/

lemma chain_concat {l : List ℤ} {s a : ℤ}
    (hlast : l.getLast? = some s) (hchain : List.Chain' (fun a b => b ≤ a) l)
    (hle : a ≤ s) : List.Chain' (fun a b : ℤ => b ≤ a) (l ++ [a]) := by
  refine List.chain'_append.mpr ⟨hchain, List.chain'_singleton a, ?_⟩
  intro x hx y hy
  simp only [hlast, Option.mem_def, Option.some.injEq] at hx
  simp only [List.head?_cons, Option.mem_def, Option.some.injEq] at hy
  omega

lemma MonoInvBF_step (bcfg : BuyerConfig) (budget : ℤ) (sell : CobraSeller)
    (hβe0 : 0 ≤ bcfg.early_round_multiplier.getD (mkRat 85 100))
    (hβe1 : bcfg.early_round_multiplier.getD (mkRat 85 100) ≤ 1)
    (hβm0 : 0 ≤ bcfg.mid_round_multiplier.getD (mkRat 92 100))
    (hβm1 : bcfg.mid_round_multiplier.getD (mkRat 92 100) ≤ 1)
    (hσe : 0 ≤ sell.config.early_round_multiplier.getD (mkRat 11 10))
    (hσm : 0 ≤ sell.config.mid_round_multiplier.getD (mkRat 104 100))
    (hee : sell.config.early_round_multiplier.getD (mkRat 11 10) *
      bcfg.early_round_multiplier.getD (mkRat 85 100) ≤ 1)
    (hmm : sell.config.mid_round_multiplier.getD (mkRat 104 100) *
      bcfg.mid_round_multiplier.getD (mkRat 92 100) ≤ 1)
    (hme : sell.config.mid_round_multiplier.getD (mkRat 104 100) *
      bcfg.early_round_multiplier.getD (mkRat 85 100) ≤ 1)
    (hF : bcfg.force_close_round.getD 10 = sell.config.force_close_round.getD 10)
    (hbud : 0 ≤ budget) (hfl0 : 0 ≤ sellerFloor sell)
    (st : SessionState) (h : MonoInvBF budget sell st)
    (hacc : st.accepted = false) (hst : st.status ≠ DealStatus.ACCEPTED) :
    MonoInvBF budget sell (stepBuyerFirst bcfg st) := by
  obtain ⟨h1, h2, h3, h4, h5, h6, h7⟩ := h
  subst h1
  simp only [stepBuyerFirst]
  split_ifs with hbacc
  · exact ⟨rfl, h2, h3, h4, h5, h6, h7⟩
  · have hb_cap := respond_price_le_cap bcfg
      { st.ctx with current_round := st.ctx.current_round + 1 }
      st.seller_offer st.seller_msg hbacc
    rw [hF] at hb_cap
    have hb0 : 0 ≤ (respond_to_seller_offer bcfg
        { st.ctx with current_round := st.ctx.current_round + 1 }
        st.seller_offer st.seller_msg).2.1 :=
      respond_price_nonneg bcfg _ _ _ h4 (h2.symm ▸ hbud) hβe0 hβm0 hbacc
    have hnext : (respond_to_buyer st.seller
        (respond_to_seller_offer bcfg
          { st.ctx with current_round := st.ctx.current_round + 1 }
          st.seller_offer st.seller_msg).2.1
        (st.ctx.current_round + 1)).1 ≤ st.seller_offer :=
      respond_to_buyer_le_prev st.seller _ (st.ctx.current_round + 1)
        (st.ctx.current_round + 1) st.seller_offer hβe0 hβe1 hβm0 hβm1 hσe hσm
        hee hmm hme h3 h4 hb0 hb_cap (le_refl _)
    have hflnext := sellerFloor_le_respond st.seller
      (respond_to_seller_offer bcfg
        { st.ctx with current_round := st.ctx.current_round + 1 }
        st.seller_offer st.seller_msg).2.1 (st.ctx.current_round + 1)
    refine ⟨rfl, h2, hflnext, le_trans hfl0 hflnext, ?_, ?_, ?_⟩
    · intro x hx
      rcases List.mem_append.mp hx with hx | hx
      · exact h5 x hx
      · rw [List.mem_singleton.mp hx]
        exact hflnext
    · exact List.getLast?_concat _
    · exact chain_concat h6 h7 hnext

lemma MonoInvBF_init (bcfg : BuyerConfig) (scfg : SellerConfig) (product : Product)
    (budget min_price : ℤ) (hmp : 0 ≤ min_price) :
    MonoInvBF budget ⟨"Cobra-Seller", min_price, scfg, none⟩
      (initBuyerFirst bcfg scfg product budget min_price) := by
  have hfl : sellerFloor ⟨"Cobra-Seller", min_price, scfg, none⟩ = min_price := rfl
  simp only [initBuyerFirst]
  have hflr := sellerFloor_le_respond ⟨"Cobra-Seller", min_price, scfg, none⟩
    (generate_opening_offer bcfg ⟨product, budget, 1, [], [], []⟩).1 1
  refine ⟨rfl, rfl, hflr, ?_, ?_, ?_, ?_⟩
  · rw [hfl] at hflr
    exact le_trans hmp hflr
  · intro x hx
    simp only [List.nil_append, List.mem_singleton] at hx
    rw [hx]
    exact hflr
  · simp
  · simp

lemma MonoInvSF_step (bcfg : BuyerConfig) (budget : ℤ) (sell : CobraSeller) (op : ℤ)
    (hβe0 : 0 ≤ bcfg.early_round_multiplier.getD (mkRat 85 100))
    (hβe1 : bcfg.early_round_multiplier.getD (mkRat 85 100) ≤ 1)
    (hβm0 : 0 ≤ bcfg.mid_round_multiplier.getD (mkRat 92 100))
    (hβm1 : bcfg.mid_round_multiplier.getD (mkRat 92 100) ≤ 1)
    (hσe : 0 ≤ sell.config.early_round_multiplier.getD (mkRat 11 10))
    (hσm : 0 ≤ sell.config.mid_round_multiplier.getD (mkRat 104 100))
    (hee : sell.config.early_round_multiplier.getD (mkRat 11 10) *
      bcfg.early_round_multiplier.getD (mkRat 85 100) ≤ 1)
    (hmm : sell.config.mid_round_multiplier.getD (mkRat 104 100) *
      bcfg.mid_round_multiplier.getD (mkRat 92 100) ≤ 1)
    (hme : sell.config.mid_round_multiplier.getD (mkRat 104 100) *
      bcfg.early_round_multiplier.getD (mkRat 85 100) ≤ 1)
    (hF : bcfg.force_close_round.getD 10 = sell.config.force_close_round.getD 10)
    (hbud : 0 ≤ budget) (hfl0 : 0 ≤ sellerFloor sell)
    (st : SessionState)
    (h : MonoInvSF budget sell op (bcfg.early_round_multiplier.getD (mkRat 85 100))
      (bcfg.mid_round_multiplier.getD (mkRat 92 100)) st)
    (hacc : st.accepted = false) (hst : st.status ≠ DealStatus.ACCEPTED) :
    MonoInvSF budget sell op (bcfg.early_round_multiplier.getD (mkRat 85 100))
      (bcfg.mid_round_multiplier.getD (mkRat 92 100)) (stepSellerFirst bcfg st) := by
  obtain ⟨⟨h1, h2, h3, h4, h5, h6, h7⟩, hub, hublist, hcap⟩ := h
  obtain ⟨hbcap, hb0⟩ := hcap hacc hst
  subst h1
  have hnext : (respond_to_buyer st.seller st.buyer_offer
      (st.ctx.current_round + 1)).1 ≤ st.seller_offer :=
    respond_to_buyer_le_prev st.seller st.buyer_offer st.ctx.current_round
      (st.ctx.current_round + 1) st.seller_offer hβe0 hβe1 hβm0 hβm1 hσe hσm
      hee hmm hme h3 h4 hb0 hbcap (by omega)
  have hflnext := sellerFloor_le_respond st.seller st.buyer_offer
    (st.ctx.current_round + 1)
  simp only [stepSellerFirst]
  split_ifs with hsacc
  · refine ⟨⟨rfl, h2, hflnext, le_trans hfl0 hflnext, ?_, ?_, ?_⟩, ?_, ?_, ?_⟩
    · intro x hx
      rcases List.mem_append.mp hx with hx | hx
      · exact h5 x hx
      · rw [List.mem_singleton.mp hx]
        exact hflnext
    · exact List.getLast?_concat _
    · exact chain_concat h6 h7 hnext
    · exact le_trans hnext hub
    · intro x hx
      rcases List.mem_append.mp hx with hx | hx
      · exact hublist x hx
      · rw [List.mem_singleton.mp hx]
        exact le_trans hnext hub
    · intro hca _
      rw [hsacc] at hca
      cases hca
  · refine ⟨⟨rfl, h2, hflnext, le_trans hfl0 hflnext, ?_, ?_, ?_⟩, ?_, ?_, ?_⟩
    · intro x hx
      rcases List.mem_append.mp hx with hx | hx
      · exact h5 x hx
      · rw [List.mem_singleton.mp hx]
        exact hflnext
    · exact List.getLast?_concat _
    · exact chain_concat h6 h7 hnext
    · exact le_trans hnext hub
    · intro x hx
      rcases List.mem_append.mp hx with hx | hx
      · exact hublist x hx
      · rw [List.mem_singleton.mp hx]
        exact le_trans hnext hub
    · intro _ hss
      by_cases hbacc : (respond_to_seller_offer bcfg
          { product := st.ctx.product, your_budget := st.ctx.your_budget,
            current_round := st.ctx.current_round + 1,
            seller_offers := st.ctx.seller_offers ++
              [(respond_to_buyer st.seller st.buyer_offer (st.ctx.current_round + 1)).1],
            your_offers := st.ctx.your_offers,
            messages := st.ctx.messages ++ [("seller",
              (respond_to_buyer st.seller st.buyer_offer
                (st.ctx.current_round + 1)).2.1)] }
          (respond_to_buyer st.seller st.buyer_offer (st.ctx.current_round + 1)).1
          (respond_to_buyer st.seller st.buyer_offer
            (st.ctx.current_round + 1)).2.1).1 = DealStatus.ACCEPTED
      · exact absurd hbacc hss
      · constructor
        · have hb_cap := respond_price_le_cap bcfg _ _ _ hbacc
          rw [hF] at hb_cap
          exact hb_cap
        · exact respond_price_nonneg bcfg _ _ _ (le_trans hfl0 hflnext)
            (h2.symm ▸ hbud) hβe0 hβm0 hbacc


lemma MonoInvSF_init (bcfg : BuyerConfig) (scfg : SellerConfig) (product : Product)
    (budget min_price : ℤ) (hmp : 0 ≤ min_price) (hbud : 0 ≤ budget)
    (hbase : 0 ≤ product.base_market_price)
    (hσo : 0 ≤ scfg.opening_multiplier.getD (mkRat 12 10))
    (hβe0 : 0 ≤ bcfg.early_round_multiplier.getD (mkRat 85 100))
    (hβm0 : 0 ≤ bcfg.mid_round_multiplier.getD (mkRat 92 100))
    (hF : bcfg.force_close_round.getD 10 =
      scfg.force_close_round.getD 10) :
    MonoInvSF budget
      ⟨"Cobra-Seller", min_price, scfg,
        some (truncMul product.base_market_price (scfg.opening_multiplier.getD (mkRat 12 10)))⟩
      (truncMul product.base_market_price (scfg.opening_multiplier.getD (mkRat 12 10)))
      (bcfg.early_round_multiplier.getD (mkRat 85 100))
      (bcfg.mid_round_multiplier.getD (mkRat 92 100))
      (initSellerFirst bcfg scfg product budget min_price) := by
  have hop0 : 0 ≤ truncMul product.base_market_price
      (scfg.opening_multiplier.getD (mkRat 12 10)) := truncMul_nonneg hbase hσo
  have hfl : sellerFloor
      ⟨"Cobra-Seller", min_price, scfg,
        some (truncMul product.base_market_price
          (scfg.opening_multiplier.getD (mkRat 12 10)))⟩ =
      min min_price (truncMul product.base_market_price
        (scfg.opening_multiplier.getD (mkRat 12 10))) := rfl
  simp only [initSellerFirst, get_opening_price]
  refine ⟨⟨rfl, rfl, ?_, hop0, ?_, ?_, ?_⟩, le_refl _, ?_, ?_⟩
  · rw [hfl]
    exact min_le_right _ _
  · intro x hx
    simp only [List.nil_append, List.mem_singleton] at hx
    rw [hx, hfl]
    exact min_le_right _ _
  · simp
  · simp
  · intro x hx
    simp only [List.nil_append, List.mem_singleton] at hx
    rw [hx]
  · intro _ hss
    constructor
    · have hb_cap := respond_price_le_cap bcfg _ _ _ hss
      rw [hF] at hb_cap
      exact hb_cap
    · exact respond_price_nonneg bcfg _ _ _ hop0 hbud hβe0 hβm0 hss



/-! ## Claim theorems -/

/-- C4: `CobraBuyer.respond_to_seller_offer` returns `ACCEPTED` exactly when
the seller price is at most `floor(base_market_price * accept_threshold_percentage)`
and at most the buyer's budget, and an accepted response returns exactly the
seller's price; in particular a price above the budget is never accepted,
however far below the threshold it is. -/
theorem buyer_accept_rule (cfg : BuyerConfig) (context : NegotiationContext)
    (seller_price : ℤ) (seller_message : String)
    (hbase : 0 ≤ context.product.base_market_price)
    (hacc : 0 ≤ cfg.accept_threshold_percentage.getD (mkRat 9 10)) :
    ((respond_to_seller_offer cfg context seller_price seller_message).1 =
        DealStatus.ACCEPTED ↔
      (seller_price ≤ ⌊(context.product.base_market_price : ℚ) *
          cfg.accept_threshold_percentage.getD (mkRat 9 10)⌋ ∧
        seller_price ≤ context.your_budget)) ∧
    ((respond_to_seller_offer cfg context seller_price seller_message).1 =
        DealStatus.ACCEPTED →
      (respond_to_seller_offer cfg context seller_price seller_message).2.1 =
        seller_price) := by
  constructor
  · rw [← truncMul_eq_floor _ _ hbase hacc]
    exact respond_status_eq cfg context seller_price seller_message
  · exact respond_price_of_accept cfg context seller_price seller_message

theorem buyer_accept_rule_witness :
    ((0 : ℤ) ≤ mangoProduct.base_market_price ∧
      (0 : ℚ) ≤ emptyBuyerConfig.accept_threshold_percentage.getD (mkRat 9 10)) ∧
    ((respond_to_seller_offer emptyBuyerConfig ⟨mangoProduct, 220000, 3, [], [], []⟩
        160000 "msg").1 = DealStatus.ACCEPTED ↔
      ((160000 : ℤ) ≤ ⌊((⟨mangoProduct, 220000, 3, [], [], []⟩ :
          NegotiationContext).product.base_market_price : ℚ) *
          emptyBuyerConfig.accept_threshold_percentage.getD (mkRat 9 10)⌋ ∧
        (160000 : ℤ) ≤ 220000)) :=
  ⟨⟨by decide, by decide⟩,
    (buyer_accept_rule emptyBuyerConfig ⟨mangoProduct, 220000, 3, [], [], []⟩
      160000 "msg" (by decide) (by decide)).1⟩

/-- C5: `CobraSeller.respond_to_buyer` accepts exactly when the buyer offer
is at least the seller's `min_price`, independently of the round number,
and an accepting response returns exactly the buyer's offer. -/
theorem seller_accept_rule (s : CobraSeller) (buyer_offer round_num : ℤ) :
    ((respond_to_buyer s buyer_offer round_num).2.2 = true ↔
      s.min_price ≤ buyer_offer) ∧
    (s.min_price ≤ buyer_offer →
      (respond_to_buyer s buyer_offer round_num).1 = buyer_offer) :=
  ⟨respond_to_buyer_accept_iff s buyer_offer round_num,
    respond_to_buyer_accept_price s buyer_offer round_num⟩

theorem seller_accept_rule_witness :
    ((160000 : ℤ) ≤ 183600) ∧
    (respond_to_buyer ⟨"Cobra-Seller", 160000, emptySellerConfig, none⟩ 183600 2).1 =
      183600 :=
  ⟨by decide,
    (seller_accept_rule ⟨"Cobra-Seller", 160000, emptySellerConfig, none⟩ 183600 2).2
      (by decide)⟩

/-- C6: when the buyer's acceptance rule does not fire, the proposed price
follows the phase formula: the opening offer is
`floor(basePrice * earlyRoundMultiplier)` capped at the budget; a counter at
round `r ≥ F` is `min(sellerPrice, budget)` with non-accepting (ONGOING)
status; at `F - 3 ≤ r < F` it is `min(floor(sellerPrice * midRoundMultiplier),
budget)`; and at `r < F - 3` it is
`min(floor(sellerPrice * earlyRoundMultiplier), budget)`. -/
theorem buyer_phase_formula (cfg : BuyerConfig) (context : NegotiationContext)
    (seller_price : ℤ) (seller_message : String)
    (hbase : 0 ≤ context.product.base_market_price) (hsp : 0 ≤ seller_price)
    (hβe : 0 ≤ cfg.early_round_multiplier.getD (mkRat 85 100))
    (hβm : 0 ≤ cfg.mid_round_multiplier.getD (mkRat 92 100)) :
    ((generate_opening_offer cfg context).1 =
      min ⌊(context.product.base_market_price : ℚ) *
        cfg.early_round_multiplier.getD (mkRat 85 100)⌋ context.your_budget) ∧
    ((respond_to_seller_offer cfg context seller_price seller_message).1 ≠
        DealStatus.ACCEPTED →
      cfg.force_close_round.getD 10 ≤ context.current_round →
      ((respond_to_seller_offer cfg context seller_price seller_message).2.1 =
          min seller_price context.your_budget ∧
        (respond_to_seller_offer cfg context seller_price seller_message).1 =
          DealStatus.ONGOING)) ∧
    ((respond_to_seller_offer cfg context seller_price seller_message).1 ≠
        DealStatus.ACCEPTED →
      cfg.force_close_round.getD 10 - 3 ≤ context.current_round →
      context.current_round < cfg.force_close_round.getD 10 →
      (respond_to_seller_offer cfg context seller_price seller_message).2.1 =
        min ⌊(seller_price : ℚ) * cfg.mid_round_multiplier.getD (mkRat 92 100)⌋
          context.your_budget) ∧
    ((respond_to_seller_offer cfg context seller_price seller_message).1 ≠
        DealStatus.ACCEPTED →
      context.current_round < cfg.force_close_round.getD 10 - 3 →
      (respond_to_seller_offer cfg context seller_price seller_message).2.1 =
        min ⌊(seller_price : ℚ) * cfg.early_round_multiplier.getD (mkRat 85 100)⌋
          context.your_budget) := by
  refine ⟨?_, ?_, ?_, ?_⟩
  · rw [← truncMul_eq_floor _ _ hbase hβe]
    rfl
  · intro hne hr
    have hnacc : ¬ (seller_price ≤ truncMul context.product.base_market_price
        (cfg.accept_threshold_percentage.getD (mkRat 9 10)) ∧
        seller_price ≤ context.your_budget) :=
      fun hc => hne ((respond_status_eq cfg context seller_price seller_message).mpr hc)
    simp only [respond_to_seller_offer]
    split_ifs <;> first | exact ⟨rfl, rfl⟩ | (exfalso; omega)
  · intro hne h3l h3r
    have hnacc : ¬ (seller_price ≤ truncMul context.product.base_market_price
        (cfg.accept_threshold_percentage.getD (mkRat 9 10)) ∧
        seller_price ≤ context.your_budget) :=
      fun hc => hne ((respond_status_eq cfg context seller_price seller_message).mpr hc)
    rw [← truncMul_eq_floor _ _ hsp hβm]
    simp only [respond_to_seller_offer]
    split_ifs <;> first | rfl | (exfalso; omega)
  · intro hne hearly
    have hnacc : ¬ (seller_price ≤ truncMul context.product.base_market_price
        (cfg.accept_threshold_percentage.getD (mkRat 9 10)) ∧
        seller_price ≤ context.your_budget) :=
      fun hc => hne ((respond_status_eq cfg context seller_price seller_message).mpr hc)
    rw [← truncMul_eq_floor _ _ hsp hβe]
    simp only [respond_to_seller_offer]
    split_ifs <;> first | rfl | (exfalso; omega)

theorem buyer_phase_formula_witness :
    ((0 : ℤ) ≤ mangoProduct.base_market_price ∧ (0 : ℤ) ≤ 216000 ∧
      (0 : ℚ) ≤ emptyBuyerConfig.early_round_multiplier.getD (mkRat 85 100) ∧
      (0 : ℚ) ≤ emptyBuyerConfig.mid_round_multiplier.getD (mkRat 92 100) ∧
      (respond_to_seller_offer emptyBuyerConfig ⟨mangoProduct, 220000, 1, [], [], []⟩
        216000 "msg").1 ≠ DealStatus.ACCEPTED ∧
      (1 : ℤ) < emptyBuyerConfig.force_close_round.getD 10 - 3) ∧
    (respond_to_seller_offer emptyBuyerConfig ⟨mangoProduct, 220000, 1, [], [], []⟩
        216000 "msg").2.1 =
      min ⌊((216000 : ℤ) : ℚ) * emptyBuyerConfig.early_round_multiplier.getD
        (mkRat 85 100)⌋ (220000 : ℤ) :=
  ⟨⟨by decide, by decide, by decide, by decide, by decide, by decide⟩,
    (buyer_phase_formula emptyBuyerConfig ⟨mangoProduct, 220000, 1, [], [], []⟩
      216000 "msg" (by decide) (by decide) (by decide) (by decide)).2.2.2
      (by decide) (by decide)⟩

/-- C7 (amended): for every product with a positive base market price,
`CobraSeller.get_opening_price` returns the truncation
`floor(base_market_price * opening_multiplier)` (Python `int(...)`), not the
nearest-integer rounding. -/
theorem get_opening_price_truncates (s : CobraSeller) (product : Product)
    (hbase : 0 < product.base_market_price)
    (hσ : 0 ≤ s.config.opening_multiplier.getD (mkRat 12 10)) :
    (get_opening_price s product).2.1 =
      ⌊(product.base_market_price : ℚ) *
        s.config.opening_multiplier.getD (mkRat 12 10)⌋ ∧
    (get_opening_price s product).1.opening_price =
      some ⌊(product.base_market_price : ℚ) *
        s.config.opening_multiplier.getD (mkRat 12 10)⌋ := by
  have h := truncMul_eq_floor product.base_market_price
    (s.config.opening_multiplier.getD (mkRat 12 10)) (le_of_lt hbase) hσ
  constructor
  · rw [← h]
    rfl
  · rw [← h]
    rfl

/-- C7 counterexample: with the default opening multiplier 1.2 and base
market price 3, the source computes `int(3 * 1.2) = 3`, while rounding to
the nearest integer would give `round(3.6) = 4`. -/
theorem get_opening_price_not_round :
    (get_opening_price ⟨"Cobra-Seller", 160000, emptySellerConfig, none⟩
      ⟨"Alphonso Mangoes", "Mangoes", 100, "A", "Ratnagiri", 3⟩).2.1 = 3 ∧
    round ((3 : ℚ) * emptySellerConfig.opening_multiplier.getD (mkRat 12 10)) = 4 ∧
    (3 : ℤ) ≠ 4 := by
  refine ⟨by decide, ?_, by decide⟩
  have : emptySellerConfig.opening_multiplier.getD (mkRat 12 10) = 6 / 5 := by
    norm_num [emptySellerConfig, Rat.mkRat_eq_divInt, Rat.divInt_eq_div]
  rw [this, round_eq]
  norm_num

theorem get_opening_price_truncates_witness :
    ((0 : ℤ) < mangoProduct.base_market_price ∧
      (0 : ℚ) ≤ emptySellerConfig.opening_multiplier.getD (mkRat 12 10)) ∧
    (get_opening_price ⟨"Cobra-Seller", 160000, emptySellerConfig, none⟩
        mangoProduct).2.1 =
      ⌊(mangoProduct.base_market_price : ℚ) *
        emptySellerConfig.opening_multiplier.getD (mkRat 12 10)⌋ :=
  ⟨⟨by decide, by decide⟩,
    (get_opening_price_truncates ⟨"Cobra-Seller", 160000, emptySellerConfig, none⟩
      mangoProduct (by decide) (by decide)).1⟩

/-- C9: both decision functions are total Lean functions, and any subset of
missing configuration keys behaves exactly as the documented defaults:
replacing every missing key by its default (`fillBuyerConfig` /
`fillSellerConfig`) leaves both responses unchanged. -/
theorem missing_keys_default (cfg : BuyerConfig) (context : NegotiationContext)
    (seller_price : ℤ) (seller_message : String) (name : String)
    (min_price : ℤ) (scfg : SellerConfig) (opo : Option ℤ) (b r : ℤ) :
    respond_to_seller_offer (fillBuyerConfig cfg) context seller_price seller_message =
      respond_to_seller_offer cfg context seller_price seller_message ∧
    respond_to_buyer ⟨name, min_price, fillSellerConfig scfg, opo⟩ b r =
      respond_to_buyer ⟨name, min_price, scfg, opo⟩ b r := by
  constructor
  · rcases hc : cfg.catchphrases with _ | ph <;>
      simp [respond_to_seller_offer, fillBuyerConfig, fillBuyerPhrases, hc,
        Option.bind]
  · rcases hc : scfg.catchphrases with _ | ph <;>
      simp [respond_to_buyer, fillSellerConfig, fillSellerPhrases, hc,
        Option.bind]

/-- C10: on acceptance the message quotes the returned price; on a counter
the message is rendered from the pre-clamp counter (`sellerCounterRaw`)
while the returned price is that counter clamped by the opening price, and
the two disagree exactly when an opening price is set and lies strictly
below the computed counter. -/
theorem seller_message_preclamp (sell : CobraSeller) (b r : ℤ) :
    (sell.min_price ≤ b →
      respond_to_buyer sell b r =
        (b, "You have a deal at ₹" ++ toString b ++ "!", true)) ∧
    (¬ sell.min_price ≤ b →
      ((respond_to_buyer sell b r).2.1 = sellerMsgRaw sell b r ∧
        (respond_to_buyer sell b r).1 =
          Option.elim sell.opening_price (sellerCounterRaw sell b r)
            (fun op => min (sellerCounterRaw sell b r) op) ∧
        ((respond_to_buyer sell b r).1 ≠ sellerCounterRaw sell b r ↔
          ∃ op, sell.opening_price = some op ∧ op < sellerCounterRaw sell b r))) := by
  constructor
  · intro h
    simp only [respond_to_buyer, ge_iff_le, if_pos h]
  · intro h
    refine ⟨?_, ?_, ?_⟩
    · simp only [respond_to_buyer, sellerMsgRaw, sellerCounterRaw, ge_iff_le, if_neg h]
      split_ifs <;> rfl
    · rw [respond_to_buyer_price_eq, if_neg h]
    · rw [respond_to_buyer_price_eq, if_neg h]
      rcases hop : sell.opening_price with _ | op
      · simp [Option.elim]
      · simp only [Option.elim, Option.some.injEq]
        constructor
        · intro hne
          exact ⟨op, rfl, by omega⟩
        · rintro ⟨op', hop', hlt⟩
          subst hop'
          omega

theorem seller_message_preclamp_witness :
    (¬ (10 : ℤ) ≤ 3) ∧
    ((respond_to_buyer ⟨"Cobra-Seller", 10, emptySellerConfig, some 5⟩ 3 1).2.1 =
        sellerMsgRaw ⟨"Cobra-Seller", 10, emptySellerConfig, some 5⟩ 3 1 ∧
      (respond_to_buyer ⟨"Cobra-Seller", 10, emptySellerConfig, some 5⟩ 3 1).1 =
        Option.elim (some (5 : ℤ))
          (sellerCounterRaw ⟨"Cobra-Seller", 10, emptySellerConfig, some 5⟩ 3 1)
          (fun op => min
            (sellerCounterRaw ⟨"Cobra-Seller", 10, emptySellerConfig, some 5⟩ 3 1) op) ∧
      ((respond_to_buyer ⟨"Cobra-Seller", 10, emptySellerConfig, some 5⟩ 3 1).1 ≠
          sellerCounterRaw ⟨"Cobra-Seller", 10, emptySellerConfig, some 5⟩ 3 1 ↔
        ∃ op, (some (5 : ℤ)) = some op ∧
          op < sellerCounterRaw ⟨"Cobra-Seller", 10, emptySellerConfig, some 5⟩ 3 1)) :=
  ⟨by decide,
    (seller_message_preclamp ⟨"Cobra-Seller", 10, emptySellerConfig, some 5⟩ 3 1).2
      (by decide)⟩


/-- Helper: the run-level bounds invariant for the buyer-first driver. -/
lemma DealInv_runBuyerFirst (bcfg : BuyerConfig) (scfg : SellerConfig)
    (product : Product) (budget min_price : ℤ) (fuel : ℕ) :
    DealInv budget ⟨"Cobra-Seller", min_price, scfg, none⟩
      (runBuyerFirst bcfg scfg product budget min_price fuel) :=
  loopSession_invariant
    (fun st h ha hs _ => DealInv_stepBuyerFirst bcfg budget _ st h ha hs) fuel _
    (DealInv_initBuyerFirst bcfg scfg product budget min_price)

/-- Helper: the run-level bounds invariant for the seller-first driver. -/
lemma DealInv_runSellerFirst (bcfg : BuyerConfig) (scfg : SellerConfig)
    (product : Product) (budget min_price : ℤ) (fuel : ℕ) :
    DealInv budget
      ⟨"Cobra-Seller", min_price, scfg,
        some (truncMul product.base_market_price
          (scfg.opening_multiplier.getD (mkRat 12 10)))⟩
      (runSellerFirst bcfg scfg product budget min_price fuel) :=
  loopSession_invariant
    (fun st h ha hs _ => DealInv_stepSellerFirst bcfg budget _ st h ha hs) fuel _
    (DealInv_initSellerFirst bcfg scfg product budget min_price)

/-- C8: in both drivers the round counter never exceeds 10 (for any fuel,
hence at every intermediate state), and once 10 rounds have passed with
neither party accepting, the session is terminal: running any longer
changes nothing and no deal is ever agreed. -/
theorem round_limit (bcfg : BuyerConfig) (scfg : SellerConfig) (product : Product)
    (budget min_price : ℤ) (fuel : ℕ) :
    (runBuyerFirst bcfg scfg product budget min_price fuel).ctx.current_round ≤ 10 ∧
    (runSellerFirst bcfg scfg product budget min_price fuel).ctx.current_round ≤ 10 ∧
    ((runBuyerFirst bcfg scfg product budget min_price fuel).accepted = false →
      (runBuyerFirst bcfg scfg product budget min_price fuel).status ≠
        DealStatus.ACCEPTED →
      ¬ (runBuyerFirst bcfg scfg product budget min_price fuel).ctx.current_round < 10 →
      ∀ extra, runBuyerFirst bcfg scfg product budget min_price (fuel + extra) =
        runBuyerFirst bcfg scfg product budget min_price fuel) ∧
    ((runSellerFirst bcfg scfg product budget min_price fuel).accepted = false →
      (runSellerFirst bcfg scfg product budget min_price fuel).status ≠
        DealStatus.ACCEPTED →
      ¬ (runSellerFirst bcfg scfg product budget min_price fuel).ctx.current_round < 10 →
      ∀ extra, runSellerFirst bcfg scfg product budget min_price (fuel + extra) =
        runSellerFirst bcfg scfg product budget min_price fuel) := by
  refine ⟨?_, ?_, ?_, ?_⟩
  · refine loopSession_round_le (stepBuyerFirst_round bcfg) fuel _ ?_
    show (1 : ℤ) ≤ 10
    norm_num
  · refine loopSession_round_le (stepSellerFirst_round bcfg) fuel _ ?_
    show (1 : ℤ) ≤ 10
    norm_num
  · intro ha hs hr extra
    rw [runBuyerFirst, loopSession_add]
    exact loopSession_stuck (by rw [runBuyerFirst] at ha hs hr; tauto) extra
  · intro ha hs hr extra
    rw [runSellerFirst, loopSession_add]
    exact loopSession_stuck (by rw [runSellerFirst] at ha hs hr; tauto) extra

theorem round_limit_witness :
    ((runBuyerFirst emptyBuyerConfig emptySellerConfig ⟨"p", "c", 1, "A", "o", 1000⟩
        500 2000 9).accepted = false ∧
      (runBuyerFirst emptyBuyerConfig emptySellerConfig ⟨"p", "c", 1, "A", "o", 1000⟩
        500 2000 9).status ≠ DealStatus.ACCEPTED ∧
      ¬ (runBuyerFirst emptyBuyerConfig emptySellerConfig ⟨"p", "c", 1, "A", "o", 1000⟩
        500 2000 9).ctx.current_round < 10) ∧
    runBuyerFirst emptyBuyerConfig emptySellerConfig ⟨"p", "c", 1, "A", "o", 1000⟩
        500 2000 (9 + 1) =
      runBuyerFirst emptyBuyerConfig emptySellerConfig ⟨"p", "c", 1, "A", "o", 1000⟩
        500 2000 9 :=
  ⟨⟨by decide, by decide, by decide⟩,
    (round_limit emptyBuyerConfig emptySellerConfig ⟨"p", "c", 1, "A", "o", 1000⟩
      500 2000 9).2.2.1 (by decide) (by decide) (by decide) 1⟩

/-- C1 (amended): whenever a deal is reached, the agreed price is at most
the buyer's budget; it is also at least the seller's `min_price`, except
that a buyer-accepted price in a seller-first session is only guaranteed to
be at least `min_price` when `min_price` is at most the seller's opening
price (the code can otherwise accept an opening price below `min_price`). -/
theorem deal_price_in_range (bcfg : BuyerConfig) (scfg : SellerConfig)
    (product : Product) (budget min_price : ℤ) (fuel : ℕ) :
    ((runBuyerFirst bcfg scfg product budget min_price fuel).accepted = true →
      min_price ≤ (runBuyerFirst bcfg scfg product budget min_price fuel).seller_offer ∧
      (runBuyerFirst bcfg scfg product budget min_price fuel).seller_offer ≤ budget) ∧
    ((runBuyerFirst bcfg scfg product budget min_price fuel).status =
        DealStatus.ACCEPTED →
      min_price ≤ (runBuyerFirst bcfg scfg product budget min_price fuel).buyer_offer ∧
      (runBuyerFirst bcfg scfg product budget min_price fuel).buyer_offer ≤ budget) ∧
    ((runSellerFirst bcfg scfg product budget min_price fuel).accepted = true →
      min_price ≤ (runSellerFirst bcfg scfg product budget min_price fuel).seller_offer ∧
      (runSellerFirst bcfg scfg product budget min_price fuel).seller_offer ≤ budget) ∧
    ((runSellerFirst bcfg scfg product budget min_price fuel).status =
        DealStatus.ACCEPTED →
      (min_price ≤ truncMul product.base_market_price
          (scfg.opening_multiplier.getD (mkRat 12 10)) →
        min_price ≤ (runSellerFirst bcfg scfg product budget min_price fuel).buyer_offer) ∧
      (runSellerFirst bcfg scfg product budget min_price fuel).buyer_offer ≤ budget) := by
  obtain ⟨b1, b2, b3, b4, b5, b6, b7, b8⟩ :=
    DealInv_runBuyerFirst bcfg scfg product budget min_price fuel
  obtain ⟨s1, s2, s3, s4, s5, s6, s7, s8⟩ :=
    DealInv_runSellerFirst bcfg scfg product budget min_price fuel
  refine ⟨?_, ?_, ?_, ?_⟩
  · exact b7
  · intro hc
    obtain ⟨hl, hr⟩ := b8 hc
    exact ⟨hl, hr⟩
  · exact s7
  · intro hc
    obtain ⟨hl, hr⟩ := s8 hc
    refine ⟨?_, hr⟩
    intro hminop
    have : sellerFloor
        ⟨"Cobra-Seller", min_price, scfg,
          some (truncMul product.base_market_price
            (scfg.opening_multiplier.getD (mkRat 12 10)))⟩ = min_price := by
      simp [sellerFloor]
      omega
    rw [this] at hl
    exact hl

/-- C1 counterexample: with opening multiplier 0.5 (below the buyer's
accept threshold), base price 100, seller min 80 and budget 1000, the
seller-first session closes with the buyer accepting the opening price 50,
which is strictly below the seller's `min_price` 80. -/
theorem deal_below_min_price :
    (runSellerFirst emptyBuyerConfig ⟨some (mkRat 1 2), none, none, none, none, none⟩
      ⟨"p", "c", 1, "A", "o", 100⟩ 1000 80 9).status = DealStatus.ACCEPTED ∧
    (runSellerFirst emptyBuyerConfig ⟨some (mkRat 1 2), none, none, none, none, none⟩
      ⟨"p", "c", 1, "A", "o", 100⟩ 1000 80 9).buyer_offer = 50 ∧
    ¬ ((80 : ℤ) ≤ 50) :=
  ⟨by decide, by decide, by decide⟩

theorem deal_price_in_range_witness :
    ((runBuyerFirst emptyBuyerConfig emptySellerConfig mangoProduct
        220000 160000 9).status = DealStatus.ACCEPTED) ∧
    ((160000 : ℤ) ≤ (runBuyerFirst emptyBuyerConfig emptySellerConfig mangoProduct
        220000 160000 9).buyer_offer ∧
      (runBuyerFirst emptyBuyerConfig emptySellerConfig mangoProduct
        220000 160000 9).buyer_offer ≤ 220000) :=
  ⟨by decide,
    (deal_price_in_range emptyBuyerConfig emptySellerConfig mangoProduct
      220000 160000 9).2.1 (by decide)⟩

/-- C2 (amended): in both drivers every buyer offer — the opening offer and
every later response, including an accepting one — is at most the buyer's
budget.  (Monotonicity of successive buyer offers is false on this code:
see the counterexample.) -/
theorem buyer_offers_within_budget (bcfg : BuyerConfig) (scfg : SellerConfig)
    (product : Product) (budget min_price : ℤ) (fuel : ℕ) :
    (∀ x ∈ (runBuyerFirst bcfg scfg product budget min_price fuel).ctx.your_offers,
      x ≤ budget) ∧
    (∀ x ∈ (runSellerFirst bcfg scfg product budget min_price fuel).ctx.your_offers,
      x ≤ budget) :=
  ⟨(DealInv_runBuyerFirst bcfg scfg product budget min_price fuel).2.2.1,
    (DealInv_runSellerFirst bcfg scfg product budget min_price fuel).2.2.1⟩

/-- C2 counterexample: in the spec's own Scenario A (base 180000, budget
220000, seller min 160000) with the default multipliers, the buyer's
successive offers are 153000, 143055, 160000 — the second offer is lower
than the first, so they are not monotonically non-decreasing. -/
theorem buyer_offers_not_monotone :
    (runBuyerFirst emptyBuyerConfig emptySellerConfig mangoProduct
      220000 160000 9).ctx.your_offers = [153000, 143055, 160000] ∧
    ¬ List.Chain' (fun a b : ℤ => a ≤ b) [153000, 143055, 160000] :=
  ⟨by decide, by simp [List.chain'_cons]⟩

theorem buyer_offers_within_budget_witness :
    (153000 : ℤ) ∈ (runBuyerFirst emptyBuyerConfig emptySellerConfig mangoProduct
      220000 160000 9).ctx.your_offers ∧ (153000 : ℤ) ≤ 220000 :=
  ⟨by decide,
    (buyer_offers_within_budget emptyBuyerConfig emptySellerConfig mangoProduct
      220000 160000 9).1 153000 (by decide)⟩


/-- Helper: run-level monotonicity invariant, buyer-first driver. -/
lemma MonoInv_runBuyerFirst (bcfg : BuyerConfig) (scfg : SellerConfig)
    (product : Product) (budget min_price : ℤ) (fuel : ℕ)
    (hmp : 0 ≤ min_price) (hbud : 0 ≤ budget)
    (hbase : 0 ≤ product.base_market_price)
    (hσo : 0 ≤ scfg.opening_multiplier.getD (mkRat 12 10))
    (hβe0 : 0 ≤ bcfg.early_round_multiplier.getD (mkRat 85 100))
    (hβe1 : bcfg.early_round_multiplier.getD (mkRat 85 100) ≤ 1)
    (hβm0 : 0 ≤ bcfg.mid_round_multiplier.getD (mkRat 92 100))
    (hβm1 : bcfg.mid_round_multiplier.getD (mkRat 92 100) ≤ 1)
    (hσe : 0 ≤ scfg.early_round_multiplier.getD (mkRat 11 10))
    (hσm : 0 ≤ scfg.mid_round_multiplier.getD (mkRat 104 100))
    (hee : scfg.early_round_multiplier.getD (mkRat 11 10) *
      bcfg.early_round_multiplier.getD (mkRat 85 100) ≤ 1)
    (hmm : scfg.mid_round_multiplier.getD (mkRat 104 100) *
      bcfg.mid_round_multiplier.getD (mkRat 92 100) ≤ 1)
    (hme : scfg.mid_round_multiplier.getD (mkRat 104 100) *
      bcfg.early_round_multiplier.getD (mkRat 85 100) ≤ 1)
    (hF : bcfg.force_close_round.getD 10 = scfg.force_close_round.getD 10) :
    MonoInvBF budget ⟨"Cobra-Seller", min_price, scfg, none⟩
      (runBuyerFirst bcfg scfg product budget min_price fuel) := by
  have hfl0bf : (0 : ℤ) ≤ sellerFloor ⟨"Cobra-Seller", min_price, scfg, none⟩ := by
    simpa [sellerFloor] using hmp
  exact loopSession_invariant
    (fun st h ha hs _ => MonoInvBF_step bcfg budget _ hβe0 hβe1 hβm0 hβm1
      hσe hσm hee hmm hme hF hbud hfl0bf st h ha hs)
    fuel _ (MonoInvBF_init bcfg scfg product budget min_price hmp)

/-- Helper: run-level monotonicity invariant, seller-first driver. -/
lemma MonoInv_runSellerFirst (bcfg : BuyerConfig) (scfg : SellerConfig)
    (product : Product) (budget min_price : ℤ) (fuel : ℕ)
    (hmp : 0 ≤ min_price) (hbud : 0 ≤ budget)
    (hbase : 0 ≤ product.base_market_price)
    (hσo : 0 ≤ scfg.opening_multiplier.getD (mkRat 12 10))
    (hβe0 : 0 ≤ bcfg.early_round_multiplier.getD (mkRat 85 100))
    (hβe1 : bcfg.early_round_multiplier.getD (mkRat 85 100) ≤ 1)
    (hβm0 : 0 ≤ bcfg.mid_round_multiplier.getD (mkRat 92 100))
    (hβm1 : bcfg.mid_round_multiplier.getD (mkRat 92 100) ≤ 1)
    (hσe : 0 ≤ scfg.early_round_multiplier.getD (mkRat 11 10))
    (hσm : 0 ≤ scfg.mid_round_multiplier.getD (mkRat 104 100))
    (hee : scfg.early_round_multiplier.getD (mkRat 11 10) *
      bcfg.early_round_multiplier.getD (mkRat 85 100) ≤ 1)
    (hmm : scfg.mid_round_multiplier.getD (mkRat 104 100) *
      bcfg.mid_round_multiplier.getD (mkRat 92 100) ≤ 1)
    (hme : scfg.mid_round_multiplier.getD (mkRat 104 100) *
      bcfg.early_round_multiplier.getD (mkRat 85 100) ≤ 1)
    (hF : bcfg.force_close_round.getD 10 = scfg.force_close_round.getD 10) :
    MonoInvSF budget
      ⟨"Cobra-Seller", min_price, scfg,
        some (truncMul product.base_market_price
          (scfg.opening_multiplier.getD (mkRat 12 10)))⟩
      (truncMul product.base_market_price (scfg.opening_multiplier.getD (mkRat 12 10)))
      (bcfg.early_round_multiplier.getD (mkRat 85 100))
      (bcfg.mid_round_multiplier.getD (mkRat 92 100))
      (runSellerFirst bcfg scfg product budget min_price fuel) := by
  have hop0 : 0 ≤ truncMul product.base_market_price
      (scfg.opening_multiplier.getD (mkRat 12 10)) := truncMul_nonneg hbase hσo
  have hfl0sf : (0 : ℤ) ≤ sellerFloor
      ⟨"Cobra-Seller", min_price, scfg,
        some (truncMul product.base_market_price
          (scfg.opening_multiplier.getD (mkRat 12 10)))⟩ := by
    simp only [sellerFloor]
    omega
  exact loopSession_invariant
    (fun st h ha hs _ => MonoInvSF_step bcfg budget _ _ hβe0 hβe1 hβm0 hβm1
      hσe hσm hee hmm hme hF hbud hfl0sf st h ha hs)
    fuel _
    (MonoInvSF_init bcfg scfg product budget min_price hmp hbud hbase hσo
      hβe0 hβm0 hF)

/-- C3 (amended): the original unconditional claim is false (see the
counterexample); under the contraction hypotheses satisfied by the default
configuration — both parties share the same `force_close_round`, the
buyer's early/mid multipliers lie in `[0, 1]`, the seller's early/mid
multipliers are nonnegative, and each applicable seller-by-buyer multiplier
product is at most 1 — with nonnegative base price, budget and `min_price`:
in both drivers the seller's successive offers are monotonically
non-increasing; in buyer-first sessions every seller offer is at least
`min_price`; in seller-first sessions every seller offer lies between
`min(min_price, opening)` and the seller's own opening price. -/
theorem seller_offers_monotone (bcfg : BuyerConfig) (scfg : SellerConfig)
    (product : Product) (budget min_price : ℤ) (fuel : ℕ)
    (hmp : 0 ≤ min_price) (hbud : 0 ≤ budget)
    (hbase : 0 ≤ product.base_market_price)
    (hσo : 0 ≤ scfg.opening_multiplier.getD (mkRat 12 10))
    (hβe0 : 0 ≤ bcfg.early_round_multiplier.getD (mkRat 85 100))
    (hβe1 : bcfg.early_round_multiplier.getD (mkRat 85 100) ≤ 1)
    (hβm0 : 0 ≤ bcfg.mid_round_multiplier.getD (mkRat 92 100))
    (hβm1 : bcfg.mid_round_multiplier.getD (mkRat 92 100) ≤ 1)
    (hσe : 0 ≤ scfg.early_round_multiplier.getD (mkRat 11 10))
    (hσm : 0 ≤ scfg.mid_round_multiplier.getD (mkRat 104 100))
    (hee : scfg.early_round_multiplier.getD (mkRat 11 10) *
      bcfg.early_round_multiplier.getD (mkRat 85 100) ≤ 1)
    (hmm : scfg.mid_round_multiplier.getD (mkRat 104 100) *
      bcfg.mid_round_multiplier.getD (mkRat 92 100) ≤ 1)
    (hme : scfg.mid_round_multiplier.getD (mkRat 104 100) *
      bcfg.early_round_multiplier.getD (mkRat 85 100) ≤ 1)
    (hF : bcfg.force_close_round.getD 10 = scfg.force_close_round.getD 10) :
    (List.Chain' (fun a b : ℤ => b ≤ a)
      (runBuyerFirst bcfg scfg product budget min_price fuel).ctx.seller_offers) ∧
    (∀ x ∈ (runBuyerFirst bcfg scfg product budget min_price fuel).ctx.seller_offers,
      min_price ≤ x) ∧
    (List.Chain' (fun a b : ℤ => b ≤ a)
      (runSellerFirst bcfg scfg product budget min_price fuel).ctx.seller_offers) ∧
    (∀ x ∈ (runSellerFirst bcfg scfg product budget min_price fuel).ctx.seller_offers,
      min min_price (truncMul product.base_market_price
          (scfg.opening_multiplier.getD (mkRat 12 10))) ≤ x ∧
        x ≤ truncMul product.base_market_price
          (scfg.opening_multiplier.getD (mkRat 12 10))) := by
  obtain ⟨_, _, _, _, hbf5, _, hbf7⟩ :=
    MonoInv_runBuyerFirst bcfg scfg product budget min_price fuel hmp hbud hbase
      hσo hβe0 hβe1 hβm0 hβm1 hσe hσm hee hmm hme hF
  obtain ⟨⟨_, _, _, _, hsf5, _, hsf7⟩, _, hsfub, _⟩ :=
    MonoInv_runSellerFirst bcfg scfg product budget min_price fuel hmp hbud hbase
      hσo hβe0 hβe1 hβm0 hβm1 hσe hσm hee hmm hme hF
  refine ⟨hbf7, ?_, hsf7, ?_⟩
  · intro x hx
    exact hbf5 x hx
  · intro x hx
    refine ⟨?_, hsfub x hx⟩
    have := hsf5 x hx
    simpa [sellerFloor] using this

/-- C3 counterexample: with buyer early multiplier 0.95 and seller early
multiplier 1.2 (product above 1), base 1000, budget 1000000, seller min
2000, the buyer-first session produces seller offers 2000, 2280, 2166 —
the second offer exceeds the first, so seller offers are not monotonically
non-increasing. -/
theorem seller_offers_not_monotone :
    (runBuyerFirst ⟨none, some (mkRat 95 100), none, none, none⟩
      ⟨none, some (mkRat 12 10), none, none, none, none⟩
      ⟨"p", "c", 1, "A", "o", 1000⟩ 1000000 2000 9).ctx.seller_offers =
      [2000, 2280, 2166] ∧
    ¬ List.Chain' (fun a b : ℤ => b ≤ a) [2000, 2280, 2166] :=
  ⟨by decide, by simp [List.chain'_cons]⟩

theorem seller_offers_monotone_witness :
    ((0 : ℤ) ≤ 160000 ∧ (0 : ℤ) ≤ 220000 ∧
      (0 : ℤ) ≤ mangoProduct.base_market_price ∧
      (0 : ℚ) ≤ emptySellerConfig.opening_multiplier.getD (mkRat 12 10) ∧
      (0 : ℚ) ≤ emptyBuyerConfig.early_round_multiplier.getD (mkRat 85 100) ∧
      emptyBuyerConfig.early_round_multiplier.getD (mkRat 85 100) ≤ 1 ∧
      (0 : ℚ) ≤ emptyBuyerConfig.mid_round_multiplier.getD (mkRat 92 100) ∧
      emptyBuyerConfig.mid_round_multiplier.getD (mkRat 92 100) ≤ 1 ∧
      (0 : ℚ) ≤ emptySellerConfig.early_round_multiplier.getD (mkRat 11 10) ∧
      (0 : ℚ) ≤ emptySellerConfig.mid_round_multiplier.getD (mkRat 104 100) ∧
      emptySellerConfig.early_round_multiplier.getD (mkRat 11 10) *
        emptyBuyerConfig.early_round_multiplier.getD (mkRat 85 100) ≤ 1 ∧
      emptySellerConfig.mid_round_multiplier.getD (mkRat 104 100) *
        emptyBuyerConfig.mid_round_multiplier.getD (mkRat 92 100) ≤ 1 ∧
      emptySellerConfig.mid_round_multiplier.getD (mkRat 104 100) *
        emptyBuyerConfig.early_round_multiplier.getD (mkRat 85 100) ≤ 1 ∧
      emptyBuyerConfig.force_close_round.getD 10 =
        emptySellerConfig.force_close_round.getD 10) ∧
    List.Chain' (fun a b : ℤ => b ≤ a)
      (runSellerFirst emptyBuyerConfig emptySellerConfig mangoProduct
        220000 160000 9).ctx.seller_offers :=
  ⟨⟨by decide, by decide, by decide, by decide, by decide, by decide, by decide,
    by decide, by decide, by decide, by norm_num [emptySellerConfig, emptyBuyerConfig],
    by norm_num [emptySellerConfig, emptyBuyerConfig],
    by norm_num [emptySellerConfig, emptyBuyerConfig], by decide⟩,
    (seller_offers_monotone emptyBuyerConfig emptySellerConfig mangoProduct
      220000 160000 9 (by decide) (by decide) (by decide) (by decide) (by decide)
      (by decide) (by decide) (by decide) (by decide) (by decide)
      (by norm_num [emptySellerConfig, emptyBuyerConfig])
      (by norm_num [emptySellerConfig, emptyBuyerConfig])
      (by norm_num [emptySellerConfig, emptyBuyerConfig]) (by decide)).2.2.1⟩

end Cobra
